import Mathlib

/-!
Shallow embedding of the war-game bot in `main.py` (world-war-v1): the
combat resolver `BattleSystem.calculate_battle_result`, the loan flow
`ChildBot.process_loan_request`, and the AI decision engine `AISystem`
(`make_decision`, `ai_build`, `ai_ally`, `ai_attack`, `ai_research`,
`run_ai_cycle`).

Conventions used throughout:
* Python floats are modelled as `ℚ`; the random draws (`random.uniform`,
  `random.choices`, `ORDER BY RANDOM()`) are passed in as explicit
  parameters or oracles, so one fixed RNG stream is one choice of
  parameters.
* A Python call that raises is modelled as `none` / `Except.error`; the
  constructor names record which exception the source raises there.
* Unit inventories (Python dicts `unit name ↦ count`) are association
  lists `List (String × ℕ)`; iteration order is the dict order.
* Timestamps are integers counting seconds; 24 hours is 86400.
-/

namespace WorldWar

/-- Char-list version of Python's string containment test at index 0:
does the first list occur at the very start of the second. -/
def startsWithChars : List Char → List Char → Bool
  | [], _ => true
  | _ :: _, [] => false
  | p :: ps, c :: cs => p == c && startsWithChars ps cs

/-- Does the first char list occur contiguously anywhere in the second
(the semantics of Python's `pat in s` on strings). -/
def occursInChars (p : List Char) : List Char → Bool
  | [] => startsWithChars p []
  | c :: cs => startsWithChars p (c :: cs) || occursInChars p cs

/-- Python's `pat in s` for strings. -/
def strHas (s pat : String) : Bool :=
  occursInChars pat.toList s.toList

/-- The keyword "professional" (Persian) tested by the unit-power loops. -/
def kwPro : String := "حرفه"

/-- The keyword "soldier" (Persian) tested by the attack-power loop. -/
def kwSoldier : String := "سرباز"

/-- The keyword "air defense" (Persian) tested by the defense-power loop. -/
def kwAA : String := "پدافند"

/-- `main.py` lines 1434-1441: attack power accumulated over the attacker's
unit dict; count × 3 for names containing `kwPro`, count × 2 for names
containing `kwSoldier`, count × 1 otherwise. -/
def attack_power : List (String × ℕ) → ℕ
  | [] => 0
  | (unit, count) :: rest =>
      (if strHas unit kwPro then count * 3
       else if strHas unit kwSoldier then count * 2
       else count) + attack_power rest

/-- `main.py` lines 1444-1451: defense power accumulated over the defender's
unit dict; count × 4 for names containing `kwAA`, count × 3 for names
containing `kwPro`, count × 1 otherwise. -/
def defense_power : List (String × ℕ) → ℕ
  | [] => 0
  | (unit, count) :: rest =>
      (if strHas unit kwAA then count * 4
       else if strHas unit kwPro then count * 3
       else count) + defense_power rest

/-- `main.py` line 1454: `tech_multiplier = 1 + (attacker_tech - defender_tech) * 0.1`. -/
def tech_multiplier (attackerTech defenderTech : ℤ) : ℚ :=
  1 + ((attackerTech : ℚ) - (defenderTech : ℚ)) * (1 / 10)

/-- `main.py` line 1460: `final_attack = attack_power * tech_multiplier * luck`,
with `luck` the one `random.uniform(0.8, 1.2)` draw passed in explicitly. -/
def final_attack (attackerUnits : List (String × ℕ))
    (attackerTech defenderTech : ℤ) (luck : ℚ) : ℚ :=
  (attack_power attackerUnits : ℚ) * tech_multiplier attackerTech defenderTech * luck

/-- `main.py` line 1461: `final_defense = defense_power` (no morale term,
no randomness on the defense side). -/
def final_defense (defenderUnits : List (String × ℕ)) : ℚ :=
  (defense_power defenderUnits : ℚ)

inductive BattleOutcome where
  | attacker_wins
  | defender_wins
deriving DecidableEq, Repr

/-- `main.py` lines 1463-1468, the branch on the two final powers. Each
branch divides by its own side's power; `none` models the
`ZeroDivisionError` Python raises when that divisor is `0`. -/
def battleBranch (fa fd : ℚ) : Option (BattleOutcome × ℚ) :=
  if fd < fa then
    if fa = 0 then none
    else some (BattleOutcome.attacker_wins, (fa - fd) / fa)
  else
    if fd = 0 then none
    else some (BattleOutcome.defender_wins, (fd - fa) / fd)

/-- `BattleSystem.calculate_battle_result` (`main.py` lines 1429-1468):
computes the two powers, applies the tech multiplier and the luck draw to
the attack side only, and branches on `final_attack > final_defense`.
Returns the outcome and the win margin, or `none` for `ZeroDivisionError`. -/
def calculate_battle_result (attackerUnits defenderUnits : List (String × ℕ))
    (attackerTech defenderTech : ℤ) (luck : ℚ) : Option (BattleOutcome × ℚ) :=
  battleBranch (final_attack attackerUnits attackerTech defenderTech luck)
    (final_defense defenderUnits)

theorem final_defense_nonneg (defenderUnits : List (String × ℕ)) :
    0 ≤ final_defense defenderUnits := by
  unfold final_defense
  positivity

theorem battleBranch_attacker {fa fd : ℚ} (h : fd < fa) (h0 : fa ≠ 0) :
    battleBranch fa fd = some (BattleOutcome.attacker_wins, (fa - fd) / fa) := by
  unfold battleBranch
  rw [if_pos h, if_neg h0]

theorem battleBranch_defender {fa fd : ℚ} (h : ¬ fd < fa) (h0 : fd ≠ 0) :
    battleBranch fa fd = some (BattleOutcome.defender_wins, (fd - fa) / fd) := by
  unfold battleBranch
  rw [if_neg h, if_neg h0]

theorem battleBranch_raises {fa fd : ℚ} (h : ¬ fd < fa) (h0 : fd = 0) :
    battleBranch fa fd = none := by
  unfold battleBranch
  rw [if_neg h, if_pos h0]

theorem final_attack_cast (attackerUnits : List (String × ℕ))
    (attackerTech defenderTech : ℤ) (luck : ℚ) :
    final_attack attackerUnits attackerTech defenderTech luck =
      (attack_power attackerUnits : ℚ) *
        (1 + ((attackerTech : ℚ) - (defenderTech : ℚ)) * (1 / 10)) * luck := rfl

theorem battleBranch_attacker_iff {fa fd : ℚ} (h0 : 0 ≤ fd) :
    (∃ m, battleBranch fa fd = some (BattleOutcome.attacker_wins, m)) ↔ fd < fa := by
  constructor
  · rintro ⟨m, hm⟩
    by_contra h
    rcases eq_or_ne fd 0 with hz | hz
    · rw [battleBranch_raises h hz] at hm
      exact Option.noConfusion hm
    · rw [battleBranch_defender h hz] at hm
      simp at hm
  · intro h
    exact ⟨(fa - fd) / fa, battleBranch_attacker h (lt_of_le_of_lt h0 h).ne'⟩

/-- C1: the claim says attack power is clamped to `0` after the tech
multiplier, so a positive-attack attacker against a zero-defense defender
always wins. The code has no clamp: with attack power `100 > 0` and
defense `0`, a tech difference of `-20` leaves `final_attack = -100 < 0`
at the comparison, and a tech difference of `-10` makes
`final_attack = 0`, sending the resolver into the defender branch where
it divides by `final_defense = 0` (a `ZeroDivisionError`, modelled as
`none`) instead of returning `attacker_wins`. -/
theorem battle_missing_attack_floor :
    0 < attack_power [("a", 100)] ∧
    final_defense [] = 0 ∧
    final_attack [("a", 100)] 0 20 1 < 0 ∧
    calculate_battle_result [("a", 100)] [] 0 10 1 = none := by
  have hd : final_defense [] = 0 := by
    unfold final_defense
    rw [(by decide : defense_power [] = 0)]
    norm_num
  refine ⟨by decide, hd, ?_, ?_⟩
  · rw [final_attack_cast, (by decide : attack_power [("a", 100)] = 100)]
    norm_num
  · have ha : final_attack [("a", 100)] 0 10 1 = 0 := by
      rw [final_attack_cast, (by decide : attack_power [("a", 100)] = 100)]
      norm_num
    unfold calculate_battle_result
    rw [ha, hd, battleBranch_raises (lt_irrefl 0) rfl]

/-- C10: the claim says the resolver is total and in particular returns
normally when both final powers are `0`. It does not: with both
inventories empty, `final_attack = final_defense = 0`, the comparison
fails, and the defender-branch margin `(0 - 0) / 0` raises
`ZeroDivisionError` (modelled as `none`). -/
theorem battle_totality_failure :
    final_attack [] 0 0 1 = 0 ∧
    final_defense [] = 0 ∧
    calculate_battle_result [] [] 0 0 1 = none := by
  have ha : final_attack [] 0 0 1 = 0 := by
    rw [final_attack_cast, (by decide : attack_power [] = 0)]
    norm_num
  have hd : final_defense [] = 0 := by
    unfold final_defense
    rw [(by decide : defense_power [] = 0)]
    norm_num
  refine ⟨ha, hd, ?_⟩
  unfold calculate_battle_result
  rw [ha, hd, battleBranch_raises (lt_irrefl 0) rfl]

/-- C5 counterexample: the claim says a tie always yields
`defender_wins`. At a tie with both powers `0` (here forced with
zero-count unit lines) the resolver raises instead of returning
`defender_wins`. -/
theorem battle_zero_tie_not_defender_win :
    final_attack [("x", 0)] 0 0 1 = final_defense [("y", 0)] ∧
    ¬ ∃ m : ℚ, calculate_battle_result [("x", 0)] [("y", 0)] 0 0 1 =
        some (BattleOutcome.defender_wins, m) := by
  have ha : final_attack [("x", 0)] 0 0 1 = 0 := by
    rw [final_attack_cast, (by decide : attack_power [("x", 0)] = 0)]
    norm_num
  have hd : final_defense [("y", 0)] = 0 := by
    unfold final_defense
    rw [(by decide : defense_power [("y", 0)] = 0)]
    norm_num
  have hc : calculate_battle_result [("x", 0)] [("y", 0)] 0 0 1 = none := by
    unfold calculate_battle_result
    rw [ha, hd, battleBranch_raises (lt_irrefl 0) rfl]
  refine ⟨by rw [ha, hd], ?_⟩
  rintro ⟨m, hm⟩
  rw [hc] at hm
  exact Option.noConfusion hm

/-- C5 amended: the resolver returns `attacker_wins` exactly when
`final_attack > final_defense`; a tie yields `defender_wins` when
`final_defense ≠ 0` but raises `ZeroDivisionError` when both sides are
`0`. The embedding is a pure function of the inventories, tech levels
and the luck draw, so the outcome is deterministic for a fixed RNG
stream. -/
theorem battle_outcome_iff (au du : List (String × ℕ)) (a d : ℤ) (luck : ℚ) :
    ((∃ m, calculate_battle_result au du a d luck =
        some (BattleOutcome.attacker_wins, m)) ↔
      final_defense du < final_attack au a d luck) ∧
    (final_attack au a d luck = final_defense du → final_defense du ≠ 0 →
      calculate_battle_result au du a d luck = some (BattleOutcome.defender_wins, 0)) ∧
    (final_attack au a d luck = final_defense du → final_defense du = 0 →
      calculate_battle_result au du a d luck = none) := by
  refine ⟨battleBranch_attacker_iff (final_defense_nonneg du), ?_, ?_⟩
  · intro he hz
    unfold calculate_battle_result
    rw [battleBranch_defender (by rw [he]; exact lt_irrefl _) hz, he, sub_self, zero_div]
  · intro he hz
    unfold calculate_battle_result
    rw [battleBranch_raises (by rw [he]; exact lt_irrefl _) hz]

/-- C5 witness: a concrete tie with nonzero powers (one plain unit each,
equal tech), settled for the defender by `battle_outcome_iff`. -/
theorem battle_outcome_iff_witness :
    calculate_battle_result [("x", 1)] [("y", 1)] 0 0 1 =
      some (BattleOutcome.defender_wins, 0) := by
  have ha : final_attack [("x", 1)] 0 0 1 = 1 := by
    rw [final_attack_cast, (by decide : attack_power [("x", 1)] = 1)]
    norm_num
  have hd : final_defense [("y", 1)] = 1 := by
    unfold final_defense
    rw [(by decide : defense_power [("y", 1)] = 1)]
    norm_num
  exact (battle_outcome_iff [("x", 1)] [("y", 1)] 0 0 1).2.1
    (by rw [ha, hd]) (by rw [hd]; norm_num)

/-- C2 amended: the second value the resolver returns is a win margin,
not the spec's loot fraction: on an attacker win it is
`(final_attack - final_defense) / final_attack` with no `0.3` cap and no
`× 0.5` factor, and on a defender win it is
`(final_defense - final_attack) / final_defense`, which is strictly
positive (not `0`) whenever `final_attack < final_defense`. -/
theorem battle_margin_formula (au du : List (String × ℕ)) (a d : ℤ) (luck m : ℚ) :
    (calculate_battle_result au du a d luck = some (BattleOutcome.attacker_wins, m) →
      m = (final_attack au a d luck - final_defense du) / final_attack au a d luck) ∧
    (calculate_battle_result au du a d luck = some (BattleOutcome.defender_wins, m) →
      m = (final_defense du - final_attack au a d luck) / final_defense du) ∧
    (calculate_battle_result au du a d luck = some (BattleOutcome.defender_wins, m) →
      final_attack au a d luck < final_defense du → 0 < m) := by
  have h0 : 0 ≤ final_defense du := final_defense_nonneg du
  have hmargin : calculate_battle_result au du a d luck =
      some (BattleOutcome.defender_wins, m) →
      final_defense du ≠ 0 ∧
        m = (final_defense du - final_attack au a d luck) / final_defense du := by
    intro hm
    by_cases h : final_defense du < final_attack au a d luck
    · exfalso
      rw [show calculate_battle_result au du a d luck =
          battleBranch (final_attack au a d luck) (final_defense du) from rfl,
        battleBranch_attacker h (lt_of_le_of_lt h0 h).ne'] at hm
      simp at hm
    · rcases eq_or_ne (final_defense du) 0 with hz | hz
      · exfalso
        rw [show calculate_battle_result au du a d luck =
            battleBranch (final_attack au a d luck) (final_defense du) from rfl,
          battleBranch_raises h hz] at hm
        exact Option.noConfusion hm
      · rw [show calculate_battle_result au du a d luck =
            battleBranch (final_attack au a d luck) (final_defense du) from rfl,
          battleBranch_defender h hz] at hm
        simp only [Option.some.injEq, Prod.mk.injEq] at hm
        exact ⟨hz, hm.2.symm⟩
  refine ⟨?_, fun hm => (hmargin hm).2, ?_⟩
  · intro hm
    by_cases h : final_defense du < final_attack au a d luck
    · rw [show calculate_battle_result au du a d luck =
          battleBranch (final_attack au a d luck) (final_defense du) from rfl,
        battleBranch_attacker h (lt_of_le_of_lt h0 h).ne'] at hm
      simp only [Option.some.injEq, Prod.mk.injEq] at hm
      exact hm.2.symm
    · exfalso
      rcases eq_or_ne (final_defense du) 0 with hz | hz
      · rw [show calculate_battle_result au du a d luck =
            battleBranch (final_attack au a d luck) (final_defense du) from rfl,
          battleBranch_raises h hz] at hm
        exact Option.noConfusion hm
      · rw [show calculate_battle_result au du a d luck =
            battleBranch (final_attack au a d luck) (final_defense du) from rfl,
          battleBranch_defender h hz] at hm
        simp at hm
  · intro hm hlt
    obtain ⟨hz, hme⟩ := hmargin hm
    rw [hme]
    exact div_pos (by linarith) (lt_of_le_of_ne h0 (Ne.symm hz))

/-- C2 witness: two plain units against one. `battle_margin_formula`
gives the returned margin `1/2 = (2 - 1) / 2`. -/
theorem battle_margin_formula_witness :
    (1 : ℚ) / 2 = (final_attack [("a", 2)] 0 0 1 - final_defense [("b", 1)]) /
      final_attack [("a", 2)] 0 0 1 := by
  have ha : final_attack [("a", 2)] 0 0 1 = 2 := by
    rw [final_attack_cast, (by decide : attack_power [("a", 2)] = 2)]
    norm_num
  have hd : final_defense [("b", 1)] = 1 := by
    unfold final_defense
    rw [(by decide : defense_power [("b", 1)] = 1)]
    norm_num
  have hc : calculate_battle_result [("a", 2)] [("b", 1)] 0 0 1 =
      some (BattleOutcome.attacker_wins, 1 / 2) := by
    unfold calculate_battle_result
    rw [ha, hd, battleBranch_attacker (by norm_num) (by norm_num)]
    norm_num
  exact (battle_margin_formula [("a", 2)] [("b", 1)] 0 0 1 (1 / 2)).1 hc

/-- C2 counterexample: the claim's loot fraction bound and formula both
fail. Two plain units against one give an attacker-win fraction of
`1/2`, which exceeds `0.3` and differs from
`min(0.3, (finalAttack - finalDefense)/finalAttack × 0.5) = 1/4`; and one
unit against two gives a defender-win fraction of `1/2`, not `0`. -/
theorem loot_fraction_counterexample :
    calculate_battle_result [("a", 2)] [("b", 1)] 0 0 1 =
      some (BattleOutcome.attacker_wins, 1 / 2) ∧
    ¬ ((1 : ℚ) / 2 ≤ 3 / 10) ∧
    (1 : ℚ) / 2 ≠ min (3 / 10)
      ((final_attack [("a", 2)] 0 0 1 - final_defense [("b", 1)]) /
        final_attack [("a", 2)] 0 0 1 * (1 / 2)) ∧
    calculate_battle_result [("a", 1)] [("b", 2)] 0 0 1 =
      some (BattleOutcome.defender_wins, 1 / 2) := by
  have ha : final_attack [("a", 2)] 0 0 1 = 2 := by
    rw [final_attack_cast, (by decide : attack_power [("a", 2)] = 2)]
    norm_num
  have hd : final_defense [("b", 1)] = 1 := by
    unfold final_defense
    rw [(by decide : defense_power [("b", 1)] = 1)]
    norm_num
  have ha1 : final_attack [("a", 1)] 0 0 1 = 1 := by
    rw [final_attack_cast, (by decide : attack_power [("a", 1)] = 1)]
    norm_num
  have hd2 : final_defense [("b", 2)] = 2 := by
    unfold final_defense
    rw [(by decide : defense_power [("b", 2)] = 2)]
    norm_num
  refine ⟨?_, by norm_num, ?_, ?_⟩
  · unfold calculate_battle_result
    rw [ha, hd, battleBranch_attacker (by norm_num) (by norm_num)]
    norm_num
  · rw [ha, hd]
    rw [min_eq_right (by norm_num : ((2 : ℚ) - 1) / 2 * (1 / 2) ≤ 3 / 10)]
    norm_num
  · unfold calculate_battle_result
    rw [ha1, hd2, battleBranch_defender (by norm_num) (by norm_num)]
    norm_num

/-- The per-unit defense weight the source's loop applies: 4 for names
containing `kwAA`, 3 for names containing `kwPro`, 1 otherwise. -/
def defense_unit_weight (u : String) : ℕ :=
  if strHas u kwAA then 4
  else if strHas u kwPro then 3
  else 1

/-- C3 amended: the defense side is the deterministic sum
`Σ count × weight(unit)` with the fixed keyword weights 4/3/1 — there is
no per-line `uniform(0.7, 1.1)` draw and no morale multiplier, and
`final_defense` takes no morale (or any other) input at all. -/
theorem defense_fixed_weight_sum (du : List (String × ℕ)) :
    final_defense du = (((du.map fun p => p.2 * defense_unit_weight p.1).sum : ℕ) : ℚ) := by
  unfold final_defense
  congr 1
  induction du with
  | nil => rfl
  | cons hd tl ih =>
    obtain ⟨u, c⟩ := hd
    show (if strHas u kwAA then c * 4
          else if strHas u kwPro then c * 3
          else c) + defense_power tl = _
    simp only [List.map_cons, List.sum_cons, ih, defense_unit_weight]
    split_ifs <;> ring

/-- The sum-of-draws part of the spec's defense formula: one independent
uniform multiplier per unit-type line, indexed by position. -/
def specDefenseSum : List (String × ℕ) → (ℕ → ℚ) → ℕ → ℚ
  | [], _, _ => 0
  | (_, c) :: rest, draw, i => (c : ℚ) * draw i + specDefenseSum rest draw (i + 1)

/-- Modelled from the spec (refinement comparison only; the source has no
such computation): defense power `Σ count × uniform(0.7, 1.1)` over the
defender's lines, multiplied by the morale multiplier
`1 + 0.01 × (defenderMorale − 50)`. -/
def spec_final_defense (du : List (String × ℕ)) (draw : ℕ → ℚ) (morale : ℤ) : ℚ :=
  specDefenseSum du draw 0 * (1 + ((morale : ℚ) - 50) * (1 / 100))

/-- C3 counterexample: one `kwAA` unit gives the code's defense `4`, but
the spec's formula at morale 50 evaluates to the draw itself, which lies
in `[0.7, 1.1]` and can never equal `4` — the code's defense side is not
the spec's uniform-draw/morale computation. -/
theorem defense_formula_counterexample :
    final_defense [(kwAA, 1)] = 4 ∧
    ¬ ∃ draw : ℕ → ℚ, (∀ i, 7 / 10 ≤ draw i ∧ draw i ≤ 11 / 10) ∧
        spec_final_defense [(kwAA, 1)] draw 50 = final_defense [(kwAA, 1)] := by
  have hd : final_defense [(kwAA, 1)] = 4 := by
    unfold final_defense
    rw [(by decide : defense_power [(kwAA, 1)] = 4)]
    norm_num
  refine ⟨hd, ?_⟩
  rintro ⟨draw, hb, he⟩
  have hs : spec_final_defense [(kwAA, 1)] draw 50 = draw 0 := by
    simp only [spec_final_defense, specDefenseSum]
    push_cast
    ring
  rw [hs, hd] at he
  have hub := (hb 0).2
  rw [he] at hub
  norm_num at hub

/-- One row of the `loans` table: `amount`, `remaining`, and the
`created_at` timestamp (seconds). -/
structure LoanRecord where
  amount : ℤ
  remaining : ℤ
  created_at : ℤ
deriving DecidableEq, Repr

/-- The `SELECT created_at ... ORDER BY created_at DESC LIMIT 1` query of
`process_loan_request`: the most recent `created_at` among the user's
loans, `none` when there is no prior loan. -/
def latestLoanTime : List LoanRecord → Option ℤ
  | [] => none
  | l :: rest =>
    match latestLoanTime rest with
    | none => some l.created_at
    | some t => some (max l.created_at t)

/-- The part of a user's row the loan flow touches: the `money` resource
and the user's rows of the `loans` table. -/
structure UserSt where
  money : ℤ
  loans : List LoanRecord
deriving DecidableEq, Repr

inductive LoanOutcome where
  | success
  | cooldownRejected
deriving DecidableEq, Repr

/-- The success path of `process_loan_request` (`main.py` lines
1137-1161): `loan_amount = 5000`, insert a loan row with
`remaining = amount`, and credit `loan_amount` to the user's `money`. -/
def loanGrant (st : UserSt) (now : ℤ) : UserSt × LoanOutcome :=
  ({ money := st.money + 5000, loans := st.loans ++ [⟨5000, 5000, now⟩] },
    LoanOutcome.success)

/-- `ChildBot.process_loan_request` (`main.py` lines 1108-1170): fetch the
most recent loan; if it is strictly less than 24 hours (86400 s) old,
reject with the cooldown message and change nothing; otherwise grant the
fixed 5000 loan. -/
def process_loan_request (st : UserSt) (now : ℤ) : UserSt × LoanOutcome :=
  match latestLoanTime st.loans with
  | some t =>
    if now - t < 86400 then (st, LoanOutcome.cooldownRejected)
    else loanGrant st now
  | none => loanGrant st now

theorem process_loan_none {st : UserSt} {now : ℤ}
    (h : latestLoanTime st.loans = none) :
    process_loan_request st now = loanGrant st now := by
  unfold process_loan_request
  rw [h]

theorem process_loan_recent {st : UserSt} {now t : ℤ}
    (h : latestLoanTime st.loans = some t) (hc : now - t < 86400) :
    process_loan_request st now = (st, LoanOutcome.cooldownRejected) := by
  unfold process_loan_request
  rw [h]
  simp [hc]

theorem process_loan_stale {st : UserSt} {now t : ℤ}
    (h : latestLoanTime st.loans = some t) (hc : ¬ now - t < 86400) :
    process_loan_request st now = loanGrant st now := by
  unfold process_loan_request
  rw [h]
  simp [hc]

/-- C6: a loan request is rejected with the cooldown error iff the most
recent loan was issued strictly less than 24 hours (86400 s) before
`now`; at exactly 24 hours the request succeeds, and with no prior loan
it always succeeds. -/
theorem loan_cooldown_boundary (st : UserSt) (now : ℤ) :
    ((process_loan_request st now).2 = LoanOutcome.cooldownRejected ↔
      ∃ t, latestLoanTime st.loans = some t ∧ now - t < 86400) ∧
    (∀ t, latestLoanTime st.loans = some t → 86400 ≤ now - t →
      (process_loan_request st now).2 = LoanOutcome.success) ∧
    (latestLoanTime st.loans = none →
      (process_loan_request st now).2 = LoanOutcome.success) := by
  refine ⟨⟨?_, ?_⟩, ?_, ?_⟩
  · intro hr
    rcases h : latestLoanTime st.loans with _ | t
    · rw [process_loan_none h] at hr
      simp [loanGrant] at hr
    · by_cases hc : now - t < 86400
      · exact ⟨t, rfl, hc⟩
      · rw [process_loan_stale h hc] at hr
        simp [loanGrant] at hr
  · rintro ⟨t, h, hc⟩
    rw [process_loan_recent h hc]
  · intro t h hge
    rw [process_loan_stale h (not_lt.mpr hge)]
    rfl
  · intro h
    rw [process_loan_none h]
    rfl

/-- C6 witness: a loan issued at time 0 blocks a request at 86399 s. -/
theorem loan_cooldown_boundary_witness :
    (process_loan_request ⟨10000, [⟨5000, 5000, 0⟩]⟩ 86399).2 =
      LoanOutcome.cooldownRejected :=
  (loan_cooldown_boundary ⟨10000, [⟨5000, 5000, 0⟩]⟩ 86399).1.mpr
    ⟨0, rfl, by norm_num⟩

/-- C7: a country with money 10000 and no prior loan gets the 5000 loan:
exactly one loan row is appended with `remaining = 5000`, money becomes
15000, and an immediate second request is rejected by the cooldown. -/
theorem loan_first_borrow_scenario (now : ℤ) :
    (process_loan_request ⟨10000, []⟩ now).2 = LoanOutcome.success ∧
    (process_loan_request ⟨10000, []⟩ now).1.money = 15000 ∧
    (process_loan_request ⟨10000, []⟩ now).1.loans = [⟨5000, 5000, now⟩] ∧
    (process_loan_request (process_loan_request ⟨10000, []⟩ now).1 now).2 =
      LoanOutcome.cooldownRejected := by
  have h1 : process_loan_request ⟨10000, []⟩ now = loanGrant ⟨10000, []⟩ now :=
    process_loan_none rfl
  have h2 : latestLoanTime (loanGrant ⟨10000, []⟩ now).1.loans = some now := by
    simp [loanGrant, latestLoanTime]
  refine ⟨by rw [h1]; rfl, by rw [h1]; rfl, by rw [h1]; simp [loanGrant], ?_⟩
  rw [h1, process_loan_recent h2 (by omega)]

/-- The four build options `random.choice` picks from in
`AISystem.ai_build`. -/
inductive BuildChoice where
  | factory
  | soldier
  | defense
  | research
deriving DecidableEq, Repr

/-- `AISystem.ai_build` (`main.py` lines 1351-1372), the effect on the AI
country's `money`: a fixed debit applied only when the balance strictly
exceeds the cost (the `resources.get('money', 0) > cost` guard),
otherwise the resources are written back unchanged. -/
def ai_build (choice : BuildChoice) (money : ℤ) : ℤ :=
  match choice with
  | BuildChoice.factory => if 1000 < money then money - 1000 else money
  | BuildChoice.soldier => if 500 < money then money - 500 else money
  | BuildChoice.defense => money
  | BuildChoice.research => money

/-- The fixed cost each build option would debit. -/
def build_cost : BuildChoice → ℤ
  | BuildChoice.factory => 1000
  | BuildChoice.soldier => 500
  | BuildChoice.defense => 0
  | BuildChoice.research => 0

/-- C8: the money-mutating operations preserve non-negativity. `ai_build`
debits only when the balance strictly covers the fixed cost (so the
result stays positive), leaves the balance unchanged whenever it would
not cover it, and the loan flow only ever credits. -/
theorem resources_stay_nonneg (choice : BuildChoice) (money : ℤ)
    (st : UserSt) (now : ℤ) :
    (0 ≤ money → 0 ≤ ai_build choice money) ∧
    (ai_build choice money ≠ money →
      build_cost choice < money ∧ 0 < ai_build choice money) ∧
    (money < build_cost choice → ai_build choice money = money) ∧
    (0 ≤ st.money → 0 ≤ (process_loan_request st now).1.money) := by
  refine ⟨?_, ?_, ?_, ?_⟩
  · intro h
    cases choice <;> simp only [ai_build] <;> (try split_ifs) <;> omega
  · cases choice <;> simp only [ai_build, build_cost] <;> (try split_ifs) <;> intro h <;>
      first | trivial | omega
  · cases choice <;> simp only [ai_build, build_cost] <;> (try split_ifs) <;> intro h <;>
      first | trivial | omega
  · intro h
    rcases hl : latestLoanTime st.loans with _ | t
    · rw [process_loan_none hl]
      simp only [loanGrant]
      omega
    · by_cases hc : now - t < 86400
      · rw [process_loan_recent hl hc]
        exact h
      · rw [process_loan_stale hl hc]
        simp only [loanGrant]
        omega

/-- C8 witness: a balance of 800 cannot cover the factory debit of 1000,
so it stays non-negative and unchanged. -/
theorem resources_stay_nonneg_witness :
    0 ≤ ai_build BuildChoice.factory 800 ∧
    ai_build BuildChoice.factory 800 = 800 :=
  ⟨(resources_stay_nonneg BuildChoice.factory 800 ⟨0, []⟩ 0).1 (by norm_num),
   (resources_stay_nonneg BuildChoice.factory 800 ⟨0, []⟩ 0).2.2.1 (by decide)⟩

/-- The five actions `make_decision` draws from
`["attack", "build", "ally", "research", "nothing"]`. -/
inductive Decision where
  | attack
  | build
  | ally
  | research
  | nothing
deriving DecidableEq, Repr

/-- The Python exception kinds the AI cycle can raise. -/
inductive PyExc where
  | unboundLocal
deriving DecidableEq, Repr

/-- The per-bot database state the AI cycle touches: alliance ids, the
`alliance_members` rows `(alliance_id, ai_id)`, the autoincrement counter
for new alliances, the `battles` rows `(attacker_id, defender_id)`, and
each AI country's `money` and `technology_level`. -/
structure World where
  alliances : List ℕ
  allianceMembers : List (ℕ × ℕ)
  nextAllianceId : ℕ
  battles : List (ℕ × ℕ)
  aiMoney : List (ℕ × ℤ)
  aiTech : List (ℕ × ℤ)
deriving DecidableEq, Repr

/-- `UPDATE ... WHERE id = ?` on an association list: apply `f` to the
value at the first matching key, no-op when the id is absent. -/
def assocUpdate (k : ℕ) (f : α → α) : List (ℕ × α) → List (ℕ × α)
  | [] => []
  | (key, v) :: rest =>
    if key = k then (key, f v) :: rest else (key, v) :: assocUpdate k f rest

/-- `AISystem.ai_ally` (`main.py` lines 1374-1406). When no alliance row
exists, a fresh alliance is inserted and the AI joins it. When one
exists (the `ORDER BY RANDOM() LIMIT 1` fetch returns a row), the else
branch executes `INSERT ... (alliance_id, ai_id, 'ai')` — but
`alliance_id` is assigned only in the if branch, so Python raises
`UnboundLocalError`, modelled as `Except.error`. -/
def ai_ally (aiId : ℕ) (w : World) : Except PyExc World :=
  match w.alliances with
  | [] =>
    Except.ok { w with
      alliances := w.alliances ++ [w.nextAllianceId],
      allianceMembers := w.allianceMembers ++ [(w.nextAllianceId, aiId)],
      nextAllianceId := w.nextAllianceId + 1 }
  | _ :: _ => Except.error PyExc.unboundLocal

/-- `AISystem.ai_attack` (`main.py` lines 1296-1349): the random target
fetch is the `target` oracle; if it returns a row a pending battle record
is inserted, otherwise nothing happens (a silent no-op). -/
def ai_attack (aiId : ℕ) (target : Option ℕ) (w : World) : World :=
  match target with
  | some t => { w with battles := w.battles ++ [(aiId, t)] }
  | none => w

/-- `AISystem.ai_build` lifted to the world: update the AI country's
`money` in place. -/
def ai_build_world (aiId : ℕ) (choice : BuildChoice) (w : World) : World :=
  { w with aiMoney := assocUpdate aiId (ai_build choice) w.aiMoney }

/-- `AISystem.ai_research` (`main.py` lines 1408-1424): increment the
country's `technology_level` when its row exists, else do nothing. -/
def ai_research (aiId : ℕ) (w : World) : World :=
  { w with aiTech := assocUpdate aiId (· + 1) w.aiTech }

/-- The dispatch at the end of `AISystem.make_decision` (`main.py` lines
1286-1294): run the drawn action's handler; the drawn decision, the
attack-target fetch and the build-option draw are the RNG oracles. No
branch is wrapped in a try/except. -/
def make_decision (d : Decision) (aiId : ℕ) (target : Option ℕ)
    (choice : BuildChoice) (w : World) : Except PyExc World :=
  match d with
  | Decision.attack => Except.ok (ai_attack aiId target w)
  | Decision.build => Except.ok (ai_build_world aiId choice w)
  | Decision.ally => ai_ally aiId w
  | Decision.research => Except.ok (ai_research aiId w)
  | Decision.nothing => Except.ok w

/-- One pass of the `for ai in ai_countries:` loop of
`AISystem.run_ai_cycle` (`main.py` lines 1249-1261): process each
country in turn with its drawn decision. There is no try/except, so the
first exception aborts the loop; the result carries the world as left by
the last successful step, the list of countries fully processed, and the
escaped exception, if any. -/
def run_ai_cycle (dec : ℕ → Decision) (target : ℕ → Option ℕ)
    (choice : ℕ → BuildChoice) : List ℕ → World → World × List ℕ × Option PyExc
  | [], w => (w, [], none)
  | c :: rest, w =>
    match make_decision (dec c) c (target c) (choice c) w with
    | Except.error e => (w, [], some e)
    | Except.ok w₂ =>
      match run_ai_cycle dec target choice rest w₂ with
      | (w₃, done, e) => (w₃, c :: done, e)

/-- C4: the claim says no single country's failure can halt the loop over
the other AI countries. It can: with one alliance already present (id 7),
a country whose draw is `ally` hits the unbound `alliance_id` in
`ai_ally`'s else branch; the `UnboundLocalError` escapes `make_decision`
and `run_ai_cycle`, so country 2 is never processed. The first conjunct
shows the no-alliance path of `ai_ally` succeeds, isolating the fault to
the else branch. -/
theorem ai_ally_unbound_halts_cycle :
    ai_ally 1 ⟨[], [], 5, [], [], []⟩ = Except.ok ⟨[5], [(5, 1)], 6, [], [], []⟩ ∧
    ai_ally 1 ⟨[7], [], 8, [], [], []⟩ = Except.error PyExc.unboundLocal ∧
    run_ai_cycle (fun _ => Decision.ally) (fun _ => none) (fun _ => BuildChoice.factory)
        [1, 2] ⟨[7], [], 8, [], [(1, 1000), (2, 1000)], [(1, 1), (2, 1)]⟩ =
      (⟨[7], [], 8, [], [(1, 1000), (2, 1000)], [(1, 1), (2, 1)]⟩, [],
        some PyExc.unboundLocal) := by
  refine ⟨rfl, rfl, rfl⟩

/-- One personality row of `AISystem.__init__` (`main.py` lines
1241-1247): the three explicit chances; `make_decision` appends fixed
weights 0.1 for research and 0.1 for doing nothing. -/
structure Personality where
  attack_chance : ℚ
  build_chance : ℚ
  ally_chance : ℚ

/-- The `self.personalities` dict (`main.py` lines 1241-1247). -/
def personalities : List (String × Personality) :=
  [("aggressive", ⟨7 / 10, 3 / 10, 1 / 10⟩),
   ("defensive", ⟨2 / 10, 6 / 10, 4 / 10⟩),
   ("unpredictable", ⟨5 / 10, 4 / 10, 3 / 10⟩),
   ("neutral", ⟨3 / 10, 5 / 10, 2 / 10⟩),
   ("strategic", ⟨4 / 10, 6 / 10, 5 / 10⟩)]

/-- `self.personalities.get(personality, self.personalities["neutral"])`
(`main.py` line 1276); the fallback literal is the dict's `neutral` row. -/
def lookupPersonality (tag : String) : Personality :=
  match personalities.find? fun p => p.1 == tag with
  | some p => p.2
  | none => ⟨3 / 10, 5 / 10, 2 / 10⟩

/-- The weight list `make_decision` hands to `random.choices`
(`main.py` lines 1279-1285), in action order attack, build, ally,
research, nothing. -/
def decision_weights (p : Personality) : List ℚ :=
  [p.attack_chance, p.build_chance, p.ally_chance, 1 / 10, 1 / 10]

/-- Modelled from `random.choices(population, weights)` semantics: entry
`i` is drawn with probability `weights[i] / sum(weights)`; the attack
action is entry 0. -/
def attack_probability (p : Personality) : ℚ :=
  p.attack_chance / (decision_weights p).sum

/-- C9: under the weighted draw, the aggressive personality picks attack
with probability 7/13, strictly more than the defensive personality's
2/14. -/
theorem aggressive_attacks_more_than_defensive :
    attack_probability (lookupPersonality ("defensive")) <
      attack_probability (lookupPersonality ("aggressive")) := by
  have h1 : lookupPersonality ("aggressive") = ⟨7 / 10, 3 / 10, 1 / 10⟩ := rfl
  have h2 : lookupPersonality ("defensive") = ⟨2 / 10, 6 / 10, 4 / 10⟩ := rfl
  rw [h1, h2]
  norm_num [attack_probability, decision_weights]

end WorldWar
